import Mathlib

/-!
Shallow embedding of `src/cover_agent/AICaller.py` (class `AICaller`):
construction from the environment credential and tokenizer loading,
the streaming `call_model` loop, and `count_tokens`.

External boundaries are modelled as explicit parameters:
the OpenAI client's `chat.completions.create` call becomes a function
from the request to either a pre-stream transport error or a finite list
of stream events, and the tiktoken encoding becomes a record holding its
(possibly failing) `encode` function.  Python exceptions become `Except`.
-/

/-- ASCII whitespace characters removed by Python's `str.strip()`. -/
def isPyWhitespace (c : Char) : Bool :=
  c = ' ' || c = '\t' || c = '\n' || c = '\r' || c = '\x0b' || c = '\x0c'

/-- Model of Python `str.strip()`: drop leading and trailing whitespace. -/
def pyStrip (s : String) : String :=
  String.mk (((s.data.dropWhile isPyWhitespace).reverse.dropWhile isPyWhitespace).reverse)

/-- A streaming delta: `delta.content` is `None` or a string. -/
structure Delta where
  content : Option String

/-- One choice of a streamed chunk: `choices[i].delta` is `None` or a delta
(the Python truthiness test `chunk.choices[0].delta` is false exactly on `None`). -/
structure Choice where
  delta : Option Delta

/-- A streamed chunk: `chunk.choices` is a list; indexing `choices[0]` on an
empty list raises in Python. -/
structure Chunk where
  choices : List Choice

/-- One event of the response stream: either a chunk arrives, or the stream
itself raises at this point (network interruption, remote error mid-stream). -/
inductive StreamEvent where
  | chunk (c : Chunk)
  | err

/-- The tokenizer encoding returned by `tiktoken.get_encoding`: its `encode`
either yields the token list or raises. -/
structure Encoding where
  encode : String → Except String (List Nat)

/-- State of a constructed `AICaller`: `self.api_key`, `self.model`,
`self.openai_client` (modelled by the key it was given), `self.encoding`. -/
structure AICaller where
  api_key : String
  model : String
  openai_client : String
  encoding : Encoding

/-- `AICaller.__init__`: reads `OPENAI_API_KEY` from the environment
(`env_api_key`, `none` when absent), raises when it is falsy (absent or
empty), stores the model and client, then eagerly loads the encoding
(`get_encoding` models the `tiktoken.get_encoding("cl100k_base")` call),
wrapping a load failure in `"Failed to get encoding: "`. -/
def AICaller.init (model : String) (env_api_key : Option String)
    (get_encoding : Except String Encoding) : Except String AICaller :=
  match env_api_key with
  | none => Except.error "OPENAI_API_KEY environment variable not found."
  | some k =>
    if k = "" then
      Except.error "OPENAI_API_KEY environment variable not found."
    else
      match get_encoding with
      | Except.error e => Except.error ("Failed to get encoding: " ++ e)
      | Except.ok enc => Except.ok ⟨k, model, k, enc⟩

/-- The chat-completion request built by `call_model`: one user message equal
to the prompt, temperature 0, the given token budget, streaming enabled. -/
structure ChatRequest where
  model : String
  messages : List (String × String)
  temperature : Nat
  max_tokens : Nat
  stream : Bool

/-- The request `call_model` passes to `openai_client.chat.completions.create`. -/
def AICaller.mkRequest (self : AICaller) (prompt : String) (max_tokens : Nat) : ChatRequest :=
  ⟨self.model, [("user", prompt)], 0, max_tokens, true⟩

/-- The streaming loop of `call_model`: starting from accumulator `acc`
(`full_text`), consume events in order.  An `err` event, or an `IndexError`
from `chunk.choices[0]` on an empty `choices` list, is caught by the
surrounding `try`/`except`: consumption stops and the error is printed.
A chunk whose `delta` and `delta.content` are both truthy appends its
content.  Returns the final accumulator and whether a mid-stream error was
caught and reported on the observation channel. -/
def processStream : List StreamEvent → String → String × Bool
  | [], acc => (acc, false)
  | StreamEvent.err :: _, acc => (acc, true)
  | StreamEvent.chunk c :: rest, acc =>
    match c.choices with
    | [] => (acc, true)
    | ch :: _ =>
      match ch.delta with
      | none => processStream rest acc
      | some d =>
        match d.content with
        | none => processStream rest acc
        | some s => if s = "" then processStream rest acc else processStream rest (acc ++ s)

/-- Outcome of `call_model`: the returned text, and whether a mid-stream
error was reported on the observation channel (the `print` in `except`). -/
structure CallResult where
  text : String
  errorReported : Bool

/-- `AICaller.call_model`: issue the streaming request (`create` models
`openai_client.chat.completions.create`; an error from it is not caught and
propagates), run the consumption loop on the returned stream with
`full_text = ""`, and return `full_text.strip()`. -/
def AICaller.call_model (self : AICaller) (prompt : String) (max_tokens : Nat)
    (create : ChatRequest → Except String (List StreamEvent)) : Except String CallResult :=
  match create (self.mkRequest prompt max_tokens) with
  | Except.error e => Except.error e
  | Except.ok events =>
    match processStream events "" with
    | (full_text, reported) => Except.ok ⟨pyStrip full_text, reported⟩

/-- `AICaller.count_tokens`: `len(self.encoding.encode(text))`, wrapping an
encoding failure in `"Error encoding text: "`. -/
def AICaller.count_tokens (self : AICaller) (text : String) : Except String Nat :=
  match self.encoding.encode text with
  | Except.ok toks => Except.ok toks.length
  | Except.error e => Except.error ("Error encoding text: " ++ e)

/-- State-passing form of `count_tokens`: the method body reads
`self.encoding` and assigns nothing, so the post-state it threads through is
returned alongside the result. -/
def AICaller.count_tokens_run (self : AICaller) (text : String) :
    Except String Nat × AICaller :=
  match self.encoding.encode text with
  | Except.ok toks => (Except.ok toks.length, self)
  | Except.error e => (Except.error ("Error encoding text: " ++ e), self)

/-- Modelled from the spec: the `cl100k_base` tokenizer loaded from the
tiktoken library, which is not part of this repository.  The spec describes
it as a deterministic mapping from text to a sequence of discrete sub-word
units; it is modelled at codepoint granularity, so empty text yields no
units. -/
def cl100k_base : Encoding :=
  ⟨fun s => Except.ok (s.data.map Char.toNat)⟩

/-- The non-empty content fragments of the stream, in arrival order,
received strictly before the stream ends or the first mid-stream error
(an `err` event or a chunk with an empty `choices` list). -/
def streamFragments : List StreamEvent → List String
  | [] => []
  | StreamEvent.err :: _ => []
  | StreamEvent.chunk c :: rest =>
    match c.choices with
    | [] => []
    | ch :: _ =>
      match ch.delta with
      | none => streamFragments rest
      | some d =>
        match d.content with
        | none => streamFragments rest
        | some s => if s = "" then streamFragments rest else s :: streamFragments rest

/-- Whether consuming the stream hits a mid-stream error before its end. -/
def streamErrored : List StreamEvent → Bool
  | [] => false
  | StreamEvent.err :: _ => true
  | StreamEvent.chunk c :: rest =>
    match c.choices with
    | [] => true
    | _ :: _ => streamErrored rest

/-- Concatenation of a list of fragments in order. -/
def concatFragments : List String → String
  | [] => ""
  | s :: rest => s ++ concatFragments rest

/-- An event the consumption loop survives: a chunk with at least one choice. -/
def eventOk : StreamEvent → Bool
  | StreamEvent.err => false
  | StreamEvent.chunk c => !c.choices.isEmpty

theorem string_empty_append (s : String) : "" ++ s = s := by
  apply String.ext
  simp [String.data_append]

theorem string_append_empty (s : String) : s ++ "" = s := by
  apply String.ext
  simp [String.data_append]

theorem string_append_assoc (a b c : String) : a ++ b ++ c = a ++ (b ++ c) := by
  apply String.ext
  simp [String.data_append]

/-- The consumption loop computes the concatenation of the stream's
fragments appended to the initial accumulator, and flags exactly the
streams that hit a mid-stream error. -/
theorem processStream_eq (events : List StreamEvent) (acc : String) :
    processStream events acc =
      (acc ++ concatFragments (streamFragments events), streamErrored events) := by
  induction events generalizing acc with
  | nil => simp [processStream, streamFragments, streamErrored, concatFragments,
      string_append_empty]
  | cons e rest ih =>
    cases e with
    | err => simp [processStream, streamFragments, streamErrored, concatFragments,
        string_append_empty]
    | chunk c =>
      cases hc : c.choices with
      | nil => simp [processStream, streamFragments, streamErrored, hc, concatFragments,
          string_append_empty]
      | cons ch tl =>
        cases hd : ch.delta with
        | none => simp [processStream, streamFragments, streamErrored, hc, hd, ih]
        | some d =>
          cases hct : d.content with
          | none => simp [processStream, streamFragments, streamErrored, hc, hd, hct, ih]
          | some s =>
            by_cases hs : s = "" <;>
              simp [processStream, streamFragments, streamErrored, hc, hd, hct, hs, ih,
                concatFragments, string_append_assoc]

/-- A well-formed prefix passes through `streamFragments` unchanged. -/
theorem streamFragments_append (pre tail : List StreamEvent)
    (h : ∀ e ∈ pre, eventOk e = true) :
    streamFragments (pre ++ tail) = streamFragments pre ++ streamFragments tail := by
  induction pre with
  | nil => simp [streamFragments]
  | cons e rest ih =>
    have he : eventOk e = true := h e (by simp)
    have hrest : ∀ x ∈ rest, eventOk x = true := fun x hx => h x (by simp [hx])
    cases e with
    | err => simp [eventOk] at he
    | chunk c =>
      cases hc : c.choices with
      | nil => simp [eventOk, hc] at he
      | cons ch tl =>
        cases hd : ch.delta with
        | none => simp [streamFragments, hc, hd, ih hrest]
        | some d =>
          cases hct : d.content with
          | none => simp [streamFragments, hc, hd, hct, ih hrest]
          | some s =>
            by_cases hs : s = "" <;> simp [streamFragments, hc, hd, hct, hs, ih hrest]

/-- A well-formed prefix does not decide whether the stream errored. -/
theorem streamErrored_append (pre tail : List StreamEvent)
    (h : ∀ e ∈ pre, eventOk e = true) :
    streamErrored (pre ++ tail) = streamErrored tail := by
  induction pre with
  | nil => simp
  | cons e rest ih =>
    have he : eventOk e = true := h e (by simp)
    have hrest : ∀ x ∈ rest, eventOk x = true := fun x hx => h x (by simp [hx])
    cases e with
    | err => simp [eventOk] at he
    | chunk c =>
      cases hc : c.choices with
      | nil => simp [eventOk, hc] at he
      | cons ch tl => simp [streamErrored, hc, ih hrest]

/-- Every character of a concatenation comes from one of the fragments. -/
theorem mem_data_concatFragments {ch : Char} {l : List String}
    (hc : ch ∈ (concatFragments l).data) : ∃ s ∈ l, ch ∈ s.data := by
  induction l with
  | nil =>
    have hnil : (concatFragments []).data = [] := rfl
    rw [hnil] at hc
    cases hc
  | cons s rest ih =>
    have hd : (concatFragments (s :: rest)).data = s.data ++ (concatFragments rest).data := by
      rw [concatFragments, String.data_append]
    rw [hd] at hc
    rcases List.mem_append.mp hc with h | h
    · exact ⟨s, by simp, h⟩
    · obtain ⟨t, ht, hcht⟩ := ih h
      exact ⟨t, by simp [ht], hcht⟩

/-- Stripping a string whose characters are all whitespace yields `""`. -/
theorem pyStrip_eq_empty (s : String) (h : ∀ c ∈ s.data, isPyWhitespace c = true) :
    pyStrip s = "" := by
  unfold pyStrip
  have h1 : s.data.dropWhile isPyWhitespace = [] := by
    rw [List.dropWhile_eq_nil_iff]
    intro x hx
    exact h x hx
  rw [h1]
  rfl

/-- On a stream that the transport delivers, `call_model` returns the
stripped concatenation of the stream fragments, flagging a caught error. -/
theorem call_model_ok (a : AICaller) (prompt : String) (mt : Nat)
    (create : ChatRequest → Except String (List StreamEvent)) (events : List StreamEvent)
    (h : create (a.mkRequest prompt mt) = Except.ok events) :
    a.call_model prompt mt create =
      Except.ok ⟨pyStrip (concatFragments (streamFragments events)), streamErrored events⟩ := by
  unfold AICaller.call_model
  rw [h]
  show (match processStream events "" with
    | (full_text, reported) =>
      (Except.ok (CallResult.mk (pyStrip full_text) reported) : Except String CallResult)) = _
  rw [processStream_eq, string_empty_append]

/-- Test fixture: a constructed caller holding the modelled tokenizer. -/
def testCaller : AICaller := ⟨"key", "gpt", "key", cl100k_base⟩

/-- Test fixture: an encoding that fails on one particular input. -/
def testEncoding : Encoding :=
  ⟨fun s => if s = "bad" then Except.error "boom" else Except.ok [7]⟩

/-- Test fixture: a caller holding the failing encoding. -/
def boomCaller : AICaller := ⟨"key", "gpt", "key", testEncoding⟩

/-- Test fixture chunks. -/
def helChunk : Chunk := ⟨[⟨some ⟨some "Hel"⟩⟩]⟩

def loChunk : Chunk := ⟨[⟨some ⟨some "lo"⟩⟩]⟩

def badChunk : Chunk := ⟨[]⟩

def wsChunk : Chunk := ⟨[⟨some ⟨some " \n\t "⟩⟩]⟩

/-- Test fixture transports. -/
def trEmpty : ChatRequest → Except String (List StreamEvent) := fun _ => Except.ok []

def trHello : ChatRequest → Except String (List StreamEvent) :=
  fun _ => Except.ok [StreamEvent.chunk helChunk, StreamEvent.chunk loChunk, StreamEvent.err]

def trBad : ChatRequest → Except String (List StreamEvent) :=
  fun _ => Except.ok [StreamEvent.chunk helChunk, StreamEvent.chunk badChunk,
    StreamEvent.chunk loChunk]

def trWs : ChatRequest → Except String (List StreamEvent) :=
  fun _ => Except.ok [StreamEvent.chunk wsChunk]

def trFail : ChatRequest → Except String (List StreamEvent) :=
  fun _ => Except.error "auth failure"

/-- C1: for every prompt and every stream of chunks the transport delivers,
`call_model` returns exactly the whitespace-trimmed concatenation, in
arrival order, of the non-empty content fragments received before stream
end or a mid-stream error, and nothing beyond them; in particular a stream
with zero content fragments yields the empty string, not an error. -/
theorem c1_call_model_trimmed_concat (a : AICaller) (prompt : String) (mt : Nat)
    (create : ChatRequest → Except String (List StreamEvent)) (events : List StreamEvent)
    (h : create (a.mkRequest prompt mt) = Except.ok events) :
    a.call_model prompt mt create =
      Except.ok ⟨pyStrip (concatFragments (streamFragments events)), streamErrored events⟩ :=
  call_model_ok a prompt mt create events h

theorem c1_witness : testCaller.call_model "p" 4096 trEmpty = Except.ok ⟨"", false⟩ :=
  c1_call_model_trimmed_concat testCaller "p" 4096 trEmpty [] rfl

/-- C2: a stream that raises after a well-formed prefix makes `call_model`
catch the error, report it on the observation channel, and return the
trimmed text accumulated from the prefix, without raising to the caller. -/
theorem c2_midstream_error_partial (a : AICaller) (prompt : String) (mt : Nat)
    (create : ChatRequest → Except String (List StreamEvent)) (pre tail : List StreamEvent)
    (h : create (a.mkRequest prompt mt) = Except.ok (pre ++ StreamEvent.err :: tail))
    (hok : ∀ e ∈ pre, eventOk e = true) :
    a.call_model prompt mt create =
      Except.ok ⟨pyStrip (concatFragments (streamFragments pre)), true⟩ := by
  rw [call_model_ok a prompt mt create _ h, streamFragments_append _ _ hok,
    streamErrored_append _ _ hok]
  simp [streamFragments, streamErrored]

theorem c2_witness : testCaller.call_model "p" 10 trHello = Except.ok ⟨"Hello", true⟩ :=
  c2_midstream_error_partial testCaller "p" 10 trHello
    [StreamEvent.chunk helChunk, StreamEvent.chunk loChunk] [] rfl (by decide)

/-- C3: construction fails for every model name whenever the environment
credential is absent or empty, and no `AICaller` object is produced. -/
theorem c3_missing_credential (model : String) (env : Option String)
    (ge : Except String Encoding) (h : env = none ∨ env = some "") :
    AICaller.init model env ge =
      Except.error "OPENAI_API_KEY environment variable not found." := by
  rcases h with h | h <;> subst h <;> simp [AICaller.init]

theorem c3_witness :
    AICaller.init "gpt" none (Except.ok cl100k_base) =
      Except.error "OPENAI_API_KEY environment variable not found." :=
  c3_missing_credential "gpt" none (Except.ok cl100k_base) (Or.inl rfl)

/-- C4: `count_tokens` returns the length of the token list produced by the
instance's encoding when encoding succeeds, and raises an error carrying the
underlying cause exactly when encoding fails. -/
theorem c4_count_tokens_encode (a : AICaller) (text : String) :
    (∀ toks, a.encoding.encode text = Except.ok toks →
      a.count_tokens text = Except.ok toks.length) ∧
    (∀ e, a.encoding.encode text = Except.error e →
      a.count_tokens text = Except.error ("Error encoding text: " ++ e)) := by
  constructor <;> intro x hx <;> simp [AICaller.count_tokens, hx]

theorem c4_witness :
    boomCaller.count_tokens "bad" = Except.error ("Error encoding text: " ++ "boom") ∧
    boomCaller.count_tokens "hi" = Except.ok 1 :=
  ⟨(c4_count_tokens_encode boomCaller "bad").2 "boom" rfl,
   (c4_count_tokens_encode boomCaller "hi").1 [7] rfl⟩

/-- C5: a transport failure before any streaming begins is not caught by
`call_model`: it propagates to the caller unchanged and no partial text is
returned. -/
theorem c5_transport_error_propagates (a : AICaller) (prompt : String) (mt : Nat)
    (create : ChatRequest → Except String (List StreamEvent)) (e : String)
    (h : create (a.mkRequest prompt mt) = Except.error e) :
    a.call_model prompt mt create = Except.error e := by
  unfold AICaller.call_model
  rw [h]

theorem c5_witness : testCaller.call_model "p" 4096 trFail = Except.error "auth failure" :=
  c5_transport_error_propagates testCaller "p" 4096 trFail "auth failure" rfl

/-- C6: construction eagerly loads the encoding and fails with the encoding
initialization error when loading fails; every successfully constructed
object holds exactly the loaded encoding and the non-empty credential, so no
partially-initialized object is produced. -/
theorem c6_encoding_init_failure (model k e : String) (hk : k ≠ "") :
    AICaller.init model (some k) (Except.error e) =
      Except.error ("Failed to get encoding: " ++ e) ∧
    ∀ (env : Option String) (ge : Except String Encoding) (a : AICaller),
      AICaller.init model env ge = Except.ok a →
        ge = Except.ok a.encoding ∧ env = some a.api_key ∧ a.api_key ≠ "" := by
  constructor
  · simp [AICaller.init, hk]
  · intro env ge a h
    cases env with
    | none => simp [AICaller.init] at h
    | some key =>
      by_cases hkey : key = ""
      · simp [AICaller.init, hkey] at h
      · cases ge with
        | error er => simp [AICaller.init, hkey] at h
        | ok enc =>
          simp [AICaller.init, hkey] at h
          subst h
          exact ⟨rfl, rfl, hkey⟩

theorem c6_witness :
    AICaller.init "gpt" (some "key") (Except.error "boom") =
      Except.error ("Failed to get encoding: " ++ "boom") :=
  (c6_encoding_init_failure "gpt" "key" "boom" (by decide)).1

/-- C7: on every successfully constructed instance (whose encoding is the
loaded `cl100k_base`), `count_tokens` of the empty string returns 0. -/
theorem c7_count_tokens_empty (model : String) (env : Option String) (a : AICaller)
    (h : AICaller.init model env (Except.ok cl100k_base) = Except.ok a) :
    a.count_tokens "" = Except.ok 0 := by
  cases env with
  | none => simp [AICaller.init] at h
  | some k =>
    by_cases hk : k = ""
    · simp [AICaller.init, hk] at h
    · simp [AICaller.init, hk] at h
      subst h
      rfl

theorem c7_witness : (AICaller.mk "key" "gpt" "key" cl100k_base).count_tokens "" = Except.ok 0 :=
  c7_count_tokens_empty "gpt" (some "key") (AICaller.mk "key" "gpt" "key" cl100k_base) rfl

/-- C8: `count_tokens` is deterministic and mutates no state: the post-state
equals the pre-state, a repeated call on the post-state returns the
identical result, and a subsequent `call_model` on the post-state behaves
exactly as on the pre-state. -/
theorem c8_count_tokens_frame (a : AICaller) (text : String) :
    (a.count_tokens_run text).2 = a ∧
    ((a.count_tokens_run text).2.count_tokens_run text).1 = (a.count_tokens_run text).1 ∧
    ∀ (prompt : String) (mt : Nat) (create : ChatRequest → Except String (List StreamEvent)),
      (a.count_tokens_run text).2.call_model prompt mt create =
        a.call_model prompt mt create := by
  have h2 : (a.count_tokens_run text).2 = a := by
    unfold AICaller.count_tokens_run
    cases a.encoding.encode text <;> rfl
  exact ⟨h2, by rw [h2], fun prompt mt create => by rw [h2]⟩

/-- C9: a stream whose non-empty content fragments are all whitespace makes
`call_model` return the empty string, indistinguishable from a stream with
no content fragments at all. -/
theorem c9_whitespace_only_empty (a : AICaller) (prompt : String) (mt : Nat)
    (create : ChatRequest → Except String (List StreamEvent)) (events : List StreamEvent)
    (h : create (a.mkRequest prompt mt) = Except.ok events)
    (hw : ∀ s ∈ streamFragments events, ∀ c ∈ s.data, isPyWhitespace c = true) :
    a.call_model prompt mt create = Except.ok ⟨"", streamErrored events⟩ := by
  rw [call_model_ok a prompt mt create events h]
  rw [pyStrip_eq_empty _ (fun c hc => by
    obtain ⟨s, hs, hcs⟩ := mem_data_concatFragments hc
    exact hw s hs c hcs)]

theorem c9_witness : testCaller.call_model "p" 4096 trWs = Except.ok ⟨"", false⟩ :=
  c9_whitespace_only_empty testCaller "p" 4096 trWs [StreamEvent.chunk wsChunk] rfl (by decide)

/-- C10: a malformed chunk with an empty choices list after a well-formed
prefix stops consumption there: fragments of later chunks are never
appended, the mid-stream handler catches the indexing failure, and
`call_model` returns the trimmed text accumulated before the malformed
chunk without raising. -/
theorem c10_malformed_chunk_stops (a : AICaller) (prompt : String) (mt : Nat)
    (create : ChatRequest → Except String (List StreamEvent)) (pre tail : List StreamEvent)
    (c : Chunk) (h : create (a.mkRequest prompt mt) = Except.ok (pre ++ StreamEvent.chunk c :: tail))
    (hok : ∀ e ∈ pre, eventOk e = true) (hc : c.choices = []) :
    a.call_model prompt mt create =
      Except.ok ⟨pyStrip (concatFragments (streamFragments pre)), true⟩ := by
  rw [call_model_ok a prompt mt create _ h, streamFragments_append _ _ hok,
    streamErrored_append _ _ hok]
  simp [streamFragments, streamErrored, hc]

theorem c10_witness : testCaller.call_model "p" 10 trBad = Except.ok ⟨"Hel", true⟩ :=
  c10_malformed_chunk_stops testCaller "p" 10 trBad [StreamEvent.chunk helChunk]
    [StreamEvent.chunk loChunk] badChunk rfl (by decide) rfl
